import Mathlib

/-!
# E-commerce Real-time Data Pipeline — verification of the spec against the source

Shallow embedding of the repository's pipeline:

* `src/spark-apps/spark_streaming.py` — the Spark structured-streaming job:
  JSON parsing under the fixed base schema (`from_json`, lines 50-84),
  timestamp/event_date derivation (lines 86-89), the required-field `dropna`
  and the invalid-record console filter (lines 91-102), the final column
  select (lines 142-159), and the driver's try/except around the streaming
  query (lines 162-182).
* `src/api/main.py` — the FastAPI ingress: the pydantic `EventModel`
  (required fields, `extra = 'allow'`) and the `/events` handler.

The Spark/Iceberg checkpoint-commit machinery (the spec's Commit
Coordinator) is external to the repository — only its caller, the
`writeStream` configuration, appears in src — so that part is modelled
from the spec (definitions marked `Modelled from the spec:`).
-/

namespace ECommerce

/-! ## JSON value model

A JSON payload as produced by the ingress and read from the broker:
an association list of fields.  Decimal numbers are kept symbolically as
an integer part and a fractional digit string so that no floating point
enters the development (the pipeline never computes with them, it only
moves them). -/

inductive JValue where
  | jnull
  | jstr (s : String)
  | jint (n : Int)
  | jdec (ip : Int) (fp : Nat)
  | jbool (b : Bool)
  deriving DecidableEq, Repr

abbrev Payload : Type := List (String × JValue)

/-- Typed extraction of a string field, as Spark's `from_json` binds a
`StringType` column: present with the right type, else `null`. -/
def getString (p : Payload) (k : String) : Option String :=
  match List.lookup k p with
  | some (JValue.jstr s) => some s
  | _ => none

/-- Typed extraction of an `IntegerType` column. -/
def getInt (p : Payload) (k : String) : Option Int :=
  match List.lookup k p with
  | some (JValue.jint n) => some n
  | _ => none

/-- Typed extraction of a `DoubleType` column (integer or decimal literal). -/
def getDouble (p : Payload) (k : String) : Option (Int × Nat) :=
  match List.lookup k p with
  | some (JValue.jint n) => some (n, 0)
  | some (JValue.jdec ip fp) => some (ip, fp)
  | _ => none

/-! ## Timestamps

Model of Spark's `to_timestamp(col)` cast on the ISO-8601-like strings the
collaborators produce (`yyyy-MM-dd[THH:mm:ss[.fff]]`, no timezone offset:
the job configures no session timezone and the generator emits naive
timestamps, so parsing is a pure function of the string).  An unparseable
or out-of-range string yields `none`, which Spark renders as a null
`timestamp` column. -/

structure Timestamp where
  year : Nat
  month : Nat
  day : Nat
  hour : Nat
  minute : Nat
  second : Nat
  deriving DecidableEq, Repr

def digitVal (c : Char) : Option Nat :=
  if c.isDigit then some (c.toNat - 48) else none

def parseNDigitsAux : Nat → Nat → List Char → Option (Nat × List Char)
  | 0, acc, cs => some (acc, cs)
  | _ + 1, _, [] => none
  | n + 1, acc, c :: cs =>
    match digitVal c with
    | some d => parseNDigitsAux n (acc * 10 + d) cs
    | none => none

def parseNDigits (n : Nat) (cs : List Char) : Option (Nat × List Char) :=
  parseNDigitsAux n 0 cs

def expectChar (c : Char) : List Char → Option (List Char)
  | [] => none
  | x :: xs => if x = c then some xs else none

def isLeapYear (y : Nat) : Bool :=
  (y % 4 == 0 && y % 100 != 0) || y % 400 == 0

def daysInMonth (y m : Nat) : Nat :=
  if m == 2 then (if isLeapYear y then 29 else 28)
  else if m == 4 || m == 6 || m == 9 || m == 11 then 30
  else 31

/-- Consume an optional fractional-seconds suffix `.d+`. -/
def dropFraction : List Char → Option (List Char)
  | [] => some []
  | '.' :: rest =>
    let digits := rest.takeWhile Char.isDigit
    if digits.isEmpty then none else some (rest.dropWhile Char.isDigit)
  | cs => some cs

/-- Parse `HH:mm:ss` with range checks, allowing a fractional suffix. -/
def parseTimePart (cs : List Char) : Option (Nat × Nat × Nat) := do
  let (h, cs) ← parseNDigits 2 cs
  let cs ← expectChar ':' cs
  let (mi, cs) ← parseNDigits 2 cs
  let cs ← expectChar ':' cs
  let (s, cs) ← parseNDigits 2 cs
  let cs ← dropFraction cs
  if h < 24 && mi < 60 && s < 60 && cs.isEmpty then
    some (h, mi, s)
  else
    none

/-- Model of `to_timestamp` on a string column: parse the date, then an
optional `T`- or space-separated time-of-day; invalid dates (month 13,
Feb 30, ...) give `none` exactly as the cast gives null. -/
def parseTimestamp (s : String) : Option Timestamp := do
  let cs := s.toList
  let (y, cs) ← parseNDigits 4 cs
  let cs ← expectChar '-' cs
  let (mo, cs) ← parseNDigits 2 cs
  let cs ← expectChar '-' cs
  let (d, cs) ← parseNDigits 2 cs
  if 1 ≤ mo ∧ mo ≤ 12 ∧ 1 ≤ d ∧ d ≤ daysInMonth y mo then
    match cs with
    | [] => some ⟨y, mo, d, 0, 0, 0⟩
    | sep :: rest =>
      if sep = 'T' ∨ sep = ' ' then do
        let (h, mi, sec) ← parseTimePart rest
        some ⟨y, mo, d, h, mi, sec⟩
      else
        none
  else
    none

def pad2 (n : Nat) : String :=
  if n < 10 then "0" ++ toString n else toString n

def pad4 (n : Nat) : String :=
  if n < 10 then "000" ++ toString n
  else if n < 100 then "00" ++ toString n
  else if n < 1000 then "0" ++ toString n
  else toString n

/-- Model of `date_format(col("timestamp"), "yyyy-MM-dd")`. -/
def date_format (t : Timestamp) : String :=
  pad4 t.year ++ "-" ++ pad2 t.month ++ "-" ++ pad2 t.day

/-! ## The streaming job's dataframe pipeline

`spark_streaming.py` lines 50-66 fix `ecommerce_base_schema` as fourteen
typed fields; `from_json(value, ecommerce_base_schema, mode=PERMISSIVE)`
followed by `select("data.*")` (lines 82-84) binds exactly those columns,
each null when the field is absent or of the wrong type.  Fields of the
payload outside the schema are not bound to anything. -/

def base_schema_fields : List String :=
  ["event_id", "event_type", "user_id", "product_id", "session_id",
   "location", "device", "timestamp", "ip_address", "category",
   "quantity", "price", "order_id", "amount"]

/-- One row of `parsed_df` right after `from_json` + `select("data.*")`:
the fourteen base-schema columns, each nullable.  `timestamp` is still the
raw string column here. -/
structure ParsedRow where
  event_id : Option String
  event_type : Option String
  user_id : Option Int
  product_id : Option String
  session_id : Option String
  location : Option String
  device : Option String
  timestamp : Option String
  ip_address : Option String
  category : Option String
  quantity : Option Int
  price : Option (Int × Nat)
  order_id : Option String
  amount : Option (Int × Nat)
  deriving DecidableEq, Repr

/-- `from_json(col("value").cast("string"), ecommerce_base_schema)` then
`select("data.*")` — lines 82-84. -/
def from_json (p : Payload) : ParsedRow :=
  { event_id := getString p "event_id"
  , event_type := getString p "event_type"
  , user_id := getInt p "user_id"
  , product_id := getString p "product_id"
  , session_id := getString p "session_id"
  , location := getString p "location"
  , device := getString p "device"
  , timestamp := getString p "timestamp"
  , ip_address := getString p "ip_address"
  , category := getString p "category"
  , quantity := getInt p "quantity"
  , price := getDouble p "price"
  , order_id := getString p "order_id"
  , amount := getDouble p "amount" }

/-- One row of `parsed_df` after the two `withColumn` calls (lines 87-89):
`timestamp` replaced by `to_timestamp(timestamp)` and `event_date` added as
`date_format(timestamp, "yyyy-MM-dd")` (null propagates through both). -/
structure StagedRow where
  event_id : Option String
  event_type : Option String
  user_id : Option Int
  product_id : Option String
  session_id : Option String
  location : Option String
  device : Option String
  timestamp : Option Timestamp
  event_date : Option String
  ip_address : Option String
  category : Option String
  quantity : Option Int
  price : Option (Int × Nat)
  order_id : Option String
  amount : Option (Int × Nat)
  deriving DecidableEq, Repr

/-- The `withColumn("timestamp", to_timestamp(...))` and
`withColumn("event_date", date_format(...))` steps, lines 87-89. -/
def withDerivedColumns (r : ParsedRow) : StagedRow :=
  { event_id := r.event_id
  , event_type := r.event_type
  , user_id := r.user_id
  , product_id := r.product_id
  , session_id := r.session_id
  , location := r.location
  , device := r.device
  , timestamp := r.timestamp.bind parseTimestamp
  , event_date := (r.timestamp.bind parseTimestamp).map date_format
  , ip_address := r.ip_address
  , category := r.category
  , quantity := r.quantity
  , price := r.price
  , order_id := r.order_id
  , amount := r.amount }

/-- The whole per-record transformation of `parsed_df`. -/
def stageRecord (p : Payload) : StagedRow :=
  withDerivedColumns (from_json p)

/-- `required_fields = ["event_id", "event_type", "user_id", "timestamp"]`
and `dropna(subset=required_fields)` — lines 92-93: a row survives iff all
four are non-null. -/
def passesRequired (r : StagedRow) : Bool :=
  r.event_id.isSome && r.event_type.isSome &&
    r.user_id.isSome && r.timestamp.isSome

/-- The invalid-records console filter, line 96:
`col("event_id").isNull() | col("event_type").isNull()`. -/
def isInvalidRecord (r : StagedRow) : Bool :=
  r.event_id.isNone || r.event_type.isNone

/-- `parsed_df` over a batch of raw payloads. -/
def parsed_df (input : List Payload) : List StagedRow :=
  input.map stageRecord

/-- `cleaned_df = parsed_df.dropna(subset=required_fields)` — line 93. -/
def cleaned_df (input : List Payload) : List StagedRow :=
  (parsed_df input).filter passesRequired

/-- `invalid_df = parsed_df.filter(event_id.isNull | event_type.isNull)`
— line 96; this is everything the console "dead-letter" sink receives. -/
def invalid_df (input : List Payload) : List StagedRow :=
  (parsed_df input).filter isInvalidRecord

/-! ## The final select and the written rows -/

/-- Value of one table column. -/
inductive CValue where
  | cnull
  | cstr (s : String)
  | cint (n : Int)
  | cdouble (ip : Int) (fp : Nat)
  | cts (t : Timestamp)
  deriving DecidableEq, Repr

abbrev Row : Type := List (String × CValue)

def ofStr : Option String → CValue
  | none => CValue.cnull
  | some s => CValue.cstr s

def ofInt : Option Int → CValue
  | none => CValue.cnull
  | some n => CValue.cint n

def ofDouble : Option (Int × Nat) → CValue
  | none => CValue.cnull
  | some (ip, fp) => CValue.cdouble ip fp

def ofTs : Option Timestamp → CValue
  | none => CValue.cnull
  | some t => CValue.cts t

/-- The fifteen-column select of lines 143-159, in the exact order of the
Iceberg table schema (lines 109-125). -/
def toTableRow (r : StagedRow) : Row :=
  [ ("event_id", ofStr r.event_id)
  , ("event_type", ofStr r.event_type)
  , ("user_id", ofInt r.user_id)
  , ("product_id", ofStr r.product_id)
  , ("session_id", ofStr r.session_id)
  , ("location", ofStr r.location)
  , ("device", ofStr r.device)
  , ("timestamp", ofTs r.timestamp)
  , ("event_date", ofStr r.event_date)
  , ("ip_address", ofStr r.ip_address)
  , ("category", ofStr r.category)
  , ("quantity", ofInt r.quantity)
  , ("price", ofDouble r.price)
  , ("order_id", ofStr r.order_id)
  , ("amount", ofDouble r.amount) ]

/-- The table's column list, from `CREATE TABLE local.db.ecommerce_events`
(lines 109-125). -/
def table_columns : List String :=
  ["event_id", "event_type", "user_id", "product_id", "session_id",
   "location", "device", "timestamp", "event_date", "ip_address",
   "category", "quantity", "price", "order_id", "amount"]

/-- The rows the `writeStream` appends to the table for a batch of raw
payloads: exactly the rows of `cleaned_df`, through the final select. -/
def tableWrites (input : List Payload) : List Row :=
  (cleaned_df input).map toTableRow

/-- The partitioning of the written rows: the table is
`PARTITIONED BY (event_type, event_date)` (line 128), so the partition key
of a row is the pair of those two columns. -/
def partitionKey (r : StagedRow) : Option String × Option String :=
  (r.event_type, r.event_date)

/-! ## The ingress endpoint (`src/api/main.py`)

The pydantic `EventModel` (lines 22-33) declares seven required fields —
`event_id`, `event_type`, `user_id`, `session_id`, `location`, `device`,
`timestamp` — with `extra = 'allow'`, so any additional fields pass
through.  FastAPI validates the request body against the model before the
handler runs: a body failing validation is answered with a request
validation error and `send_event` (and hence `producer.produce`) is never
invoked.  On success the handler produces the whole body to topic
`ecommerce_events`, keyed by `session_id`. -/

def api_required_fields : List String :=
  ["event_id", "event_type", "user_id", "session_id", "location",
   "device", "timestamp"]

/-- One required `EventModel` field validates iff it is present with the
declared type (`user_id : int`, the rest `str`). -/
def apiFieldOk (p : Payload) (k : String) : Bool :=
  if k = "user_id" then (getInt p k).isSome else (getString p k).isSome

/-- Pydantic validation of the request body against `EventModel`:
all seven required fields present and typed; extra fields unconstrained
(`extra = 'allow'`). -/
def validEventModel (p : Payload) : Bool :=
  api_required_fields.all (apiFieldOk p)

/-- The broker as the ingress sees it: the sequence of produced
`(key, value)` messages on topic `ecommerce_events`. -/
structure Broker where
  messages : List (String × Payload)
  deriving DecidableEq

inductive ApiResponse where
  | accepted
  | validationError
  deriving DecidableEq, Repr

def sessionKey (p : Payload) : String :=
  match getString p "session_id" with
  | some s => s
  | none => ""

/-- `POST /events`: FastAPI validates the body against `EventModel`; on
failure it responds with a validation error without touching the producer;
on success `send_event` produces the full body keyed by `session_id`. -/
def send_event (b : Broker) (body : Payload) : ApiResponse × Broker :=
  if validEventModel body then
    (ApiResponse.accepted, ⟨b.messages ++ [(sessionKey body, body)]⟩)
  else
    (ApiResponse.validationError, b)

/-! ## The driver's failure handling (`spark_streaming.py` lines 162-182)

The streaming query is started inside a single `try`; the driver then
blocks in `awaitAnyTermination()`.  If the query fails, the exception is
logged and re-raised (`raise`), and the `finally` block stops the Spark
session.  There is no retry loop, no backoff and no attempt counter
anywhere in the job.

A batch is modelled by the number of transient failures its commit would
signal before succeeding (`0` = first attempt succeeds).  The driver
processes batches in order; the first failing attempt kills the query and
the driver re-raises. -/

structure DriverResult where
  /-- micro-batches durably committed before the driver returned -/
  committed : Nat
  /-- the exception propagated out of the driver (fatal halt) -/
  fatal : Bool
  /-- the `finally` block ran (`spark.stop()`) -/
  stopped : Bool
  deriving DecidableEq, Repr

/-- The driver of lines 162-182: each batch is attempted exactly once; a
batch whose first attempt fails (`k + 1` pending transient failures)
terminates the query, the exception is re-raised and `spark.stop()` runs;
no batch is retried. -/
def runDriver : List Nat → DriverResult
  | [] => ⟨0, false, true⟩
  | 0 :: rest =>
    let r := runDriver rest
    ⟨r.committed + 1, r.fatal, true⟩
  | (_ + 1) :: _ => ⟨0, true, true⟩

/-- Follows the spec's words (§4.4, §7), for comparison with `runDriver`:
each commit is retried with backoff up to an attempt cap, and only a batch
still failing after `cap` attempts is surfaced as fatal. -/
def runDriverSpecRetry (cap : Nat) : List Nat → DriverResult
  | [] => ⟨0, false, true⟩
  | k :: rest =>
    if k < cap then
      let r := runDriverSpecRetry cap rest
      ⟨r.committed + 1, r.fatal, true⟩
    else ⟨0, true, true⟩

/-! ## Checkpointed consumption and atomic commit

Modelled from the spec: the Commit Coordinator / Stream Consumer machinery
(spec §4.4-§4.5) is realised by Spark Structured Streaming's checkpoint at
`checkpoint_location` together with Iceberg's atomic snapshot commit; only
its caller — the `writeStream ... option("checkpointLocation", ...)`
configuration at lines 162-174 — is in the repository.  The model below
follows the spec's words: one logical consumer per broker partition, a
durable watermark (highest committed offset, `-1` before the first
commit), records at offsets `≤` watermark skipped before validation, and
data + watermark made visible atomically. -/

structure PipelineState where
  /-- rows of the committed table snapshots (the visible table state) -/
  committedRows : List Row
  /-- data files written by attempts that never published a snapshot;
  never part of any visible state -/
  orphanedRows : List (List Row)
  /-- highest committed offset for this broker partition, `-1` initially -/
  watermark : Int
  deriving DecidableEq

/-- What a reader of the table (and of the checkpoint) observes: committed
rows and committed watermark, nothing else. -/
def visible (st : PipelineState) : List Row × Int :=
  (st.committedRows, st.watermark)

def initState : PipelineState := ⟨[], [], -1⟩

/-- Modelled from the spec: one delivered record at offset `o` of this
broker partition, whose payload is `log o`.  An offset at or below the
committed watermark is skipped before validation; otherwise the record is
validated (the job's `dropna` pipeline), a valid row is appended and the
watermark advances to `o`, both atomically. -/
def processRecord (log : Nat → Payload) (st : PipelineState) (o : Nat) :
    PipelineState :=
  if (o : Int) ≤ st.watermark then st
  else
    let r := stageRecord (log o)
    { committedRows :=
        st.committedRows ++ (if passesRequired r then [toTableRow r] else [])
    , orphanedRows := st.orphanedRows
    , watermark := (o : Int) }

/-- One consumer session: deliveries processed in arrival order. -/
def runConsumer (log : Nat → Payload) (st : PipelineState) (ds : List Nat) :
    PipelineState :=
  ds.foldl (processRecord log) st

/-- Modelled from the spec: a successful commit of a micro-batch — append
the batch's rows and raise the watermark to the batch's maximum offset, in
one atomic operation. -/
def commitBatch (st : PipelineState) (rows : List Row) (o : Nat) :
    PipelineState :=
  { committedRows := st.committedRows ++ rows
  , orphanedRows := st.orphanedRows
  , watermark := max st.watermark (o : Int) }

/-- Where a crash is injected into a commit attempt. -/
inductive CrashPoint where
  | beforeAppend
  | betweenAppendAndWatermark
  deriving DecidableEq, Repr

/-- Modelled from the spec: a commit attempt that crashes.  A crash before
any data is written leaves the state untouched; a crash after the batch's
data files are written but before the snapshot/watermark publication
leaves those files orphaned — written to storage but referenced by no
committed snapshot. -/
def commitCrash (st : PipelineState) (rows : List Row) (cp : CrashPoint) :
    PipelineState :=
  match cp with
  | CrashPoint.beforeAppend => st
  | CrashPoint.betweenAppendAndWatermark =>
    { st with orphanedRows := st.orphanedRows ++ [rows] }

/-- Modelled from the spec: restart after a crash or shutdown — the
consumer re-reads the committed watermark and table; orphaned files of
crashed attempts are not part of any snapshot and are dropped from
consideration. -/
def restart (st : PipelineState) : PipelineState :=
  { committedRows := st.committedRows
  , orphanedRows := []
  , watermark := st.watermark }

/-- A pipeline lifetime: consumer sessions separated by restarts. -/
def runSessions (log : Nat → Payload) (st : PipelineState) :
    List (List Nat) → PipelineState
  | [] => st
  | ds :: rest => runSessions log (restart (runConsumer log st ds)) rest

/-- Modelled from the spec: the deliveries an ordered at-least-once log
can produce to a consumer whose next unconsumed offset is `k`
(watermark `k - 1`): any already-consumed offset may be re-delivered at
any time (replay after redelivery or restart), and the log may advance by
delivering exactly offset `k`. -/
inductive Deliverable : Nat → List Nat → Prop where
  | nil (k : Nat) : Deliverable k []
  | replay (k o : Nat) (ds : List Nat) (ho : o < k)
      (h : Deliverable k ds) : Deliverable k (o :: ds)
  | advance (k : Nat) (ds : List Nat)
      (h : Deliverable (k + 1) ds) : Deliverable k (k :: ds)

/-- The row the pipeline writes for the record at offset `o`, if it passes
validation. -/
def validRowAt (log : Nat → Payload) (o : Nat) : Option Row :=
  let r := stageRecord (log o)
  if passesRequired r then some (toTableRow r) else none

/-- The canonical table content after consuming offsets `0, ..., k - 1`
each exactly once: one row per valid record, in offset order. -/
def canonicalRows (log : Nat → Payload) (k : Nat) : List Row :=
  (List.range k).filterMap (validRowAt log)

/-- A sequence of commit attempts that all crash (at the given points)
before publishing. -/
def crashedAttempts (st : PipelineState) :
    List (List Row × CrashPoint) → PipelineState
  | [] => st
  | (rows, cp) :: rest => crashedAttempts (commitCrash st rows cp) rest

/-! ## Concrete records used to instantiate the theorems -/

/-- A fully valid `login` event, as the generator produces. -/
def login_payload : Payload :=
  [("event_id", JValue.jstr "e1"), ("event_type", JValue.jstr "login"),
   ("user_id", JValue.jint 1001), ("session_id", JValue.jstr "s1"),
   ("location", JValue.jstr "Paris"), ("device", JValue.jstr "mobile"),
   ("timestamp", JValue.jstr "2024-01-01T10:30:00"),
   ("ip_address", JValue.jstr "10.0.0.1")]

/-- A second valid `login` event, same calendar date, different time. -/
def login_payload_late : Payload :=
  [("event_id", JValue.jstr "e2"), ("event_type", JValue.jstr "login"),
   ("user_id", JValue.jint 1002), ("session_id", JValue.jstr "s2"),
   ("location", JValue.jstr "Lyon"), ("device", JValue.jstr "desktop"),
   ("timestamp", JValue.jstr "2024-01-01T23:59:59")]

/-- A record missing `user_id` but carrying `event_id` and `event_type`. -/
def missing_user_payload : Payload :=
  [("event_id", JValue.jstr "e3"), ("event_type", JValue.jstr "login"),
   ("session_id", JValue.jstr "s3"),
   ("timestamp", JValue.jstr "2024-01-01T00:00:00")]

/-- A valid `login` event carrying the unknown extra field
`login_method` (present in generated payloads, absent from
`ecommerce_base_schema`). -/
def login_extra_payload : Payload :=
  [("event_id", JValue.jstr "e5"), ("event_type", JValue.jstr "login"),
   ("user_id", JValue.jint 1005), ("session_id", JValue.jstr "s5"),
   ("location", JValue.jstr "Rome"), ("device", JValue.jstr "desktop"),
   ("timestamp", JValue.jstr "2024-01-02T08:00:00"),
   ("login_method", JValue.jstr "google")]

/-- All four required fields present, but the timestamp string does not
parse as a calendar date. -/
def bad_timestamp_payload : Payload :=
  [("event_id", JValue.jstr "e7"), ("event_type", JValue.jstr "login"),
   ("user_id", JValue.jint 7),
   ("timestamp", JValue.jstr "01/02/2024 00:00")]

/-- A request body for `POST /events` missing the `device` field. -/
def missing_device_body : Payload :=
  [("event_id", JValue.jstr "e9"), ("event_type", JValue.jstr "login"),
   ("user_id", JValue.jint 9), ("session_id", JValue.jstr "s9"),
   ("location", JValue.jstr "Oslo"),
   ("timestamp", JValue.jstr "2024-03-01T12:00:00")]

/-- A request body with all seven `EventModel` fields. -/
def full_body : Payload :=
  [("event_id", JValue.jstr "e10"), ("event_type", JValue.jstr "checkout"),
   ("user_id", JValue.jint 10), ("session_id", JValue.jstr "s10"),
   ("location", JValue.jstr "Kyiv"), ("device", JValue.jstr "tablet"),
   ("timestamp", JValue.jstr "2024-03-02T09:00:00")]

/-- Extra fields outside the `EventModel` declaration. -/
def extra_body_fields : Payload :=
  [("cart_id", JValue.jstr "c1"), ("success", JValue.jbool true)]

/-- A two-offset broker log: a valid record at offset 0 and 2, an invalid
one (missing `user_id`) at offset 1. -/
def example_log (o : Nat) : Payload :=
  if o = 1 then missing_user_payload
  else if o = 2 then login_payload_late
  else login_payload

/-! ## Helper lemmas -/

theorem lookup_cons {β : Type} (k k' : String) (v : β) (l : List (String × β)) :
    List.lookup k ((k', v) :: l) = if k = k' then some v else List.lookup k l := by
  by_cases h : k = k'
  · simp [List.lookup, h]
  · have hb : (k == k') = false := beq_eq_false_iff_ne.mpr h
    simp [List.lookup, hb, h]

theorem lookup_eq_none_of_keys {β : Type} (k : String) :
    ∀ l : List (String × β), (∀ kv ∈ l, kv.1 ≠ k) → List.lookup k l = none
  | [], _ => rfl
  | (k', v) :: rest, h => by
    rw [lookup_cons]
    have hk' : k' ≠ k := h (k', v) (List.mem_cons_self _ _)
    rw [if_neg (fun he => hk' he.symm)]
    exact lookup_eq_none_of_keys k rest (fun kv hkv => h kv (List.mem_cons_of_mem _ hkv))

theorem lookup_append_of_right_none {β : Type} (k : String)
    (l₂ : List (String × β)) (h₂ : List.lookup k l₂ = none) :
    ∀ l₁, List.lookup k (l₁ ++ l₂) = List.lookup k l₁
  | [] => by simpa using h₂
  | (k', v) :: rest => by
    rw [List.cons_append, lookup_cons, lookup_cons,
      lookup_append_of_right_none k l₂ h₂ rest]

/-- Appending fields whose keys avoid a key list does not change lookups
of keys in that list. -/
theorem lookup_append_extras {β : Type} (body extras : List (String × β))
    (keys : List String) (f : String) (hf : f ∈ keys)
    (hex : ∀ kv ∈ extras, kv.1 ∉ keys) :
    List.lookup f (body ++ extras) = List.lookup f body := by
  refine lookup_append_of_right_none f extras ?_ body
  exact lookup_eq_none_of_keys f extras
    (fun kv hkv he => hex kv hkv (he ▸ hf))

theorem all_congr_mem {α : Type} {p q : α → Bool} :
    ∀ l : List α, (∀ a ∈ l, p a = q a) → l.all p = l.all q
  | [], _ => rfl
  | a :: rest, h => by
    rw [List.all_cons, List.all_cons, h a (List.mem_cons_self _ _),
      all_congr_mem rest (fun x hx => h x (List.mem_cons_of_mem _ hx))]

/-- A key outside the table's fifteen columns is absent from every
written row. -/
theorem lookup_toTableRow_eq_none (r : StagedRow) (k : String)
    (hk : k ∉ table_columns) : List.lookup k (toTableRow r) = none := by
  simp only [table_columns, List.mem_cons, List.not_mem_nil, or_false,
    not_or] at hk
  obtain ⟨hkA, hkB, hkC, hkD, hkE, hkF, hkG, hkH, hkI,
    hkJ, hkK, hkL, hkM, hkN, hkP⟩ := hk
  simp [toTableRow, lookup_cons, hkA, hkB, hkC, hkD, hkE, hkF, hkG,
    hkH, hkI, hkJ, hkK, hkL, hkM, hkN, hkP]

theorem canonicalRows_succ (log : Nat → Payload) (k : Nat) :
    canonicalRows log (k + 1) =
      canonicalRows log k ++ (validRowAt log k).toList := by
  unfold canonicalRows
  rw [List.range_succ, List.filterMap_append]
  cases h : validRowAt log k <;> simp [List.filterMap, h]

theorem validRowAt_toList (log : Nat → Payload) (o : Nat) :
    (validRowAt log o).toList =
      (if passesRequired (stageRecord (log o))
        then [toTableRow (stageRecord (log o))] else []) := by
  unfold validRowAt
  split <;> simp_all

theorem processRecord_watermark_le (log : Nat → Payload)
    (st : PipelineState) (o : Nat) :
    st.watermark ≤ (processRecord log st o).watermark := by
  unfold processRecord
  split
  · exact le_refl _
  · next h => simp only; omega

theorem runConsumer_watermark_le (log : Nat → Payload) :
    ∀ (ds : List Nat) (st : PipelineState),
      st.watermark ≤ (runConsumer log st ds).watermark
  | [], _ => le_refl _
  | o :: ds, st =>
    le_trans (processRecord_watermark_le log st o)
      (runConsumer_watermark_le log ds (processRecord log st o))

theorem runSessions_watermark_le (log : Nat → Payload) :
    ∀ (dss : List (List Nat)) (st : PipelineState),
      st.watermark ≤ (runSessions log st dss).watermark
  | [], _ => le_refl _
  | ds :: rest, st =>
    le_trans (runConsumer_watermark_le log ds st)
      (runSessions_watermark_le log rest (restart (runConsumer log st ds)))

theorem visible_processRecord_congr (log : Nat → Payload)
    {st1 st2 : PipelineState} (h : visible st1 = visible st2) (o : Nat) :
    visible (processRecord log st1 o) = visible (processRecord log st2 o) := by
  have hc : st1.committedRows = st2.committedRows := congrArg Prod.fst h
  have hw : st1.watermark = st2.watermark := congrArg Prod.snd h
  unfold processRecord
  by_cases ho : (o : Int) ≤ st1.watermark
  · rw [if_pos ho, if_pos (hw ▸ ho)]
    exact h
  · rw [if_neg ho, if_neg (hw ▸ ho)]
    unfold visible
    simp only [hc]

theorem visible_runConsumer_congr (log : Nat → Payload) :
    ∀ (ds : List Nat) {st1 st2 : PipelineState},
      visible st1 = visible st2 →
      visible (runConsumer log st1 ds) = visible (runConsumer log st2 ds)
  | [], _, _, h => h
  | o :: ds, _, _, h =>
    visible_runConsumer_congr log ds (visible_processRecord_congr log h o)

theorem visible_runSessions_flatten (log : Nat → Payload) :
    ∀ (dss : List (List Nat)) (st : PipelineState),
      visible (runSessions log st dss) =
        visible (runConsumer log st dss.flatten)
  | [], _ => rfl
  | ds :: rest, st => by
    show visible (runSessions log (restart (runConsumer log st ds)) rest) = _
    rw [visible_runSessions_flatten log rest (restart (runConsumer log st ds))]
    have h1 : visible (restart (runConsumer log st ds))
        = visible (runConsumer log st ds) := rfl
    rw [visible_runConsumer_congr log rest.flatten h1]
    rw [List.flatten_cons]
    show visible (List.foldl (processRecord log)
        (List.foldl (processRecord log) st ds) rest.flatten)
      = visible (List.foldl (processRecord log) st (ds ++ rest.flatten))
    rw [List.foldl_append]

theorem runConsumer_deliverable (log : Nat → Payload) {k : Nat}
    {ds : List Nat} (hdel : Deliverable k ds) :
    ∀ orph : List (List Row),
      ∃ kf, k ≤ kf ∧
        runConsumer log ⟨canonicalRows log k, orph, (k : Int) - 1⟩ ds
          = ⟨canonicalRows log kf, orph, (kf : Int) - 1⟩ ∧
        ∀ o ∈ ds, o < kf := by
  induction hdel with
  | nil k =>
    intro orph
    exact ⟨k, le_refl k, rfl, by simp⟩
  | replay k o ds ho hd ih =>
    intro orph
    obtain ⟨kf, hk, hrun, hcov⟩ := ih orph
    have hskip : processRecord log ⟨canonicalRows log k, orph, (k : Int) - 1⟩ o
        = ⟨canonicalRows log k, orph, (k : Int) - 1⟩ := by
      unfold processRecord
      rw [if_pos]
      show (o : Int) ≤ (k : Int) - 1
      omega
    refine ⟨kf, hk, ?_, ?_⟩
    · show List.foldl (processRecord log) _ (o :: ds) = _
      rw [List.foldl_cons, hskip]
      exact hrun
    · intro o' ho'
      rcases List.mem_cons.mp ho' with h | h
      · subst h; omega
      · exact hcov o' h
  | advance k ds hd ih =>
    intro orph
    obtain ⟨kf, hk, hrun, hcov⟩ := ih orph
    have hstep : processRecord log ⟨canonicalRows log k, orph, (k : Int) - 1⟩ k
        = ⟨canonicalRows log (k + 1), orph, ((k + 1 : Nat) : Int) - 1⟩ := by
      unfold processRecord
      rw [if_neg]
      · show (⟨canonicalRows log k ++
            (if passesRequired (stageRecord (log k))
              then [toTableRow (stageRecord (log k))] else []),
            orph, ((k : Nat) : Int)⟩ : PipelineState) = _
        rw [canonicalRows_succ, validRowAt_toList]
        have hw : ((k + 1 : Nat) : Int) - 1 = ((k : Nat) : Int) := by
          push_cast
          ring
        rw [hw]
      · show ¬((k : Int) ≤ (k : Int) - 1)
        omega
    refine ⟨kf, by omega, ?_, ?_⟩
    · show List.foldl (processRecord log) _ (k :: ds) = _
      rw [List.foldl_cons, hstep]
      exact hrun
    · intro o' ho'
      rcases List.mem_cons.mp ho' with h | h
      · subst h; omega
      · exact hcov o' h

theorem crashedAttempts_core :
    ∀ (l : List (List Row × CrashPoint)) (s : PipelineState),
      (crashedAttempts s l).committedRows = s.committedRows ∧
      (crashedAttempts s l).watermark = s.watermark
  | [], _ => ⟨rfl, rfl⟩
  | (rows, cp) :: rest, s => by
    have ih := crashedAttempts_core rest (commitCrash s rows cp)
    cases cp <;> simpa [crashedAttempts, commitCrash] using ih

/-! ## The claims -/

/-- C3: the partition key of every valid Event is the pure, deterministic
tuple `(event_type, event_date)` where `event_date` is the rendered
calendar date of the Event's parsed timestamp; two valid Events with the
same `event_type` and the same timestamp calendar date receive the same
partition key, by computation alone (no I/O, no mutable state enters
`partitionKey`). -/
theorem C3_partitionKey_deterministic (p1 p2 : Payload) (t1 t2 : Timestamp)
    (h1 : (stageRecord p1).timestamp = some t1)
    (h2 : (stageRecord p2).timestamp = some t2)
    (_hv1 : passesRequired (stageRecord p1) = true)
    (_hv2 : passesRequired (stageRecord p2) = true)
    (hty : (stageRecord p1).event_type = (stageRecord p2).event_type)
    (hy : t1.year = t2.year) (hm : t1.month = t2.month)
    (hd : t1.day = t2.day) :
    (stageRecord p1).event_date = some (date_format t1) ∧
    partitionKey (stageRecord p1) = partitionKey (stageRecord p2) := by
  have e1 : (stageRecord p1).event_date
      = ((stageRecord p1).timestamp).map date_format := rfl
  have e2 : (stageRecord p2).event_date
      = ((stageRecord p2).timestamp).map date_format := rfl
  have hdf : date_format t1 = date_format t2 := by
    unfold date_format
    rw [hy, hm, hd]
  constructor
  · rw [e1, h1]
    rfl
  · unfold partitionKey
    rw [e1, e2, h1, h2, hty]
    simp [hdf]

/-- C3 witness: two concrete valid `login` events on the same calendar
date but at different times map to the same partition key. -/
theorem C3_witness :
    (stageRecord login_payload).event_date
        = some (date_format ⟨2024, 1, 1, 10, 30, 0⟩) ∧
    partitionKey (stageRecord login_payload)
        = partitionKey (stageRecord login_payload_late) :=
  C3_partitionKey_deterministic login_payload login_payload_late
    ⟨2024, 1, 1, 10, 30, 0⟩ ⟨2024, 1, 1, 23, 59, 59⟩
    (by decide) (by decide) (by decide) (by decide) (by decide)
    rfl rfl rfl

/-- C4 (amended): a row of `parsed_df` reaches the table (survives the
`dropna`) exactly when all four required fields are non-null, but it is
routed to the invalid-record console sink exactly when `event_id` or
`event_type` is null — a record missing only `user_id` or `timestamp` is
silently dropped, and no failure-reason string exists anywhere in the
job. -/
theorem C4_validation_routing (input : List Payload) (r : StagedRow)
    (hr : r ∈ parsed_df input) :
    (r ∈ cleaned_df input ↔
      (r.event_id.isSome = true ∧ r.event_type.isSome = true ∧
       r.user_id.isSome = true ∧ r.timestamp.isSome = true)) ∧
    (r ∈ invalid_df input ↔
      (r.event_id.isNone = true ∨ r.event_type.isNone = true)) := by
  constructor
  · rw [cleaned_df, List.mem_filter]
    simp [hr, passesRequired, and_assoc]
  · rw [invalid_df, List.mem_filter]
    simp [hr, isInvalidRecord]

/-- C4 witness: the concrete record missing `user_id` is in `parsed_df`,
and instantiating the routing theorem at it shows it reaches neither the
table nor the invalid-record sink. -/
theorem C4_witness :
    ¬ stageRecord missing_user_payload
        ∈ cleaned_df [missing_user_payload] ∧
    ¬ stageRecord missing_user_payload
        ∈ invalid_df [missing_user_payload] := by
  have h := C4_validation_routing [missing_user_payload]
    (stageRecord missing_user_payload) (by simp [parsed_df])
  constructor
  · intro hmem
    have := h.1.mp hmem
    revert this
    decide
  · intro hmem
    have := h.2.mp hmem
    revert this
    decide

/-- C4 counterexample: a record missing `user_id` (with `event_id` and
`event_type` present) is not routed anywhere — `invalid_df`, the only
dead-letter-like sink, does not receive it, no reason such as
`missing_required_field:user_id` is recorded, and the record simply
vanishes from `cleaned_df`. -/
theorem C4_counterexample :
    (stageRecord missing_user_payload).user_id = none ∧
    invalid_df [missing_user_payload] = [] ∧
    cleaned_df [missing_user_payload] = [] ∧
    tableWrites [missing_user_payload] = [] :=
  ⟨rfl, rfl, rfl, rfl⟩

/-- C5 (amended): fields unknown to `ecommerce_base_schema` never cause a
rejection — the parsed record is unchanged by their presence — but they
are discarded by the fixed-schema `from_json`, not preserved: no written
row carries any column outside the fifteen of the table schema. -/
theorem C5_extra_fields_ignored_not_preserved (p extras : Payload)
    (hex : ∀ kv ∈ extras, kv.1 ∉ base_schema_fields) :
    stageRecord (p ++ extras) = stageRecord p ∧
    ∀ (r : StagedRow) (k : String), k ∉ table_columns →
      List.lookup k (toTableRow r) = none := by
  constructor
  · have hlook : ∀ k ∈ base_schema_fields,
        List.lookup k (p ++ extras) = List.lookup k p :=
      fun k hk => lookup_append_extras p extras base_schema_fields k hk hex
    have hfj : from_json (p ++ extras) = from_json p := by
      unfold from_json getString getInt getDouble
      rw [hlook "event_id" (by decide), hlook "event_type" (by decide),
        hlook "user_id" (by decide), hlook "product_id" (by decide),
        hlook "session_id" (by decide), hlook "location" (by decide),
        hlook "device" (by decide), hlook "timestamp" (by decide),
        hlook "ip_address" (by decide), hlook "category" (by decide),
        hlook "quantity" (by decide), hlook "price" (by decide),
        hlook "order_id" (by decide), hlook "amount" (by decide)]
    unfold stageRecord
    rw [hfj]
  · exact fun r k hk => lookup_toTableRow_eq_none r k hk

/-- C5 witness: the concrete `login` event with the unknown field
`login_method` parses exactly as without it, and the unknown field is
absent from the written row. -/
theorem C5_witness :
    stageRecord (login_payload ++ [("login_method", JValue.jstr "google")])
        = stageRecord login_payload ∧
    List.lookup "login_method" (toTableRow (stageRecord login_payload))
        = none :=
  ⟨(C5_extra_fields_ignored_not_preserved login_payload
      [("login_method", JValue.jstr "google")] (by decide)).1,
   (C5_extra_fields_ignored_not_preserved login_payload
      [("login_method", JValue.jstr "google")] (by decide)).2
      (stageRecord login_payload) "login_method" (by decide)⟩

/-- C5 counterexample: a valid record carrying the unknown extra field
`login_method` is accepted, but the written row contains no trace of the
extra field — it is dropped, not "preserved verbatim in the Event's
optional field map". -/
theorem C5_counterexample :
    passesRequired (stageRecord login_extra_payload) = true ∧
    tableWrites [login_extra_payload]
        = [toTableRow (stageRecord login_extra_payload)] ∧
    List.lookup "login_method"
        (toTableRow (stageRecord login_extra_payload)) = none :=
  ⟨rfl, rfl, rfl⟩

/-- C7 (amended): a record whose `timestamp` string is present but
unparseable gets a null `timestamp` column from `to_timestamp`, and is
then silently dropped by the `dropna`: it never reaches the table, and
(its `event_id` and `event_type` being non-null) it is not routed to the
invalid-record sink either — no provenance of the failure exists. -/
theorem C7_unparseable_timestamp_silently_dropped (input : List Payload)
    (p : Payload) (s : String)
    (hs : (from_json p).timestamp = some s)
    (hparse : parseTimestamp s = none)
    (hid : (from_json p).event_id.isSome = true)
    (hty : (from_json p).event_type.isSome = true) :
    (stageRecord p).timestamp = none ∧
    stageRecord p ∉ cleaned_df input ∧
    stageRecord p ∉ invalid_df input := by
  have hts : (stageRecord p).timestamp = none := by
    show ((from_json p).timestamp.bind parseTimestamp) = none
    rw [hs]
    simpa using hparse
  refine ⟨hts, ?_, ?_⟩
  · intro hmem
    rw [cleaned_df, List.mem_filter] at hmem
    have h2 := hmem.2
    rw [passesRequired] at h2
    simp [hts] at h2
  · intro hmem
    rw [invalid_df, List.mem_filter] at hmem
    have h2 := hmem.2
    have hid' : (stageRecord p).event_id.isSome = true := hid
    have hty' : (stageRecord p).event_type.isSome = true := hty
    rw [isInvalidRecord, Bool.or_eq_true] at h2
    rcases h2 with h2 | h2
    · rw [Option.isNone_iff_eq_none] at h2
      rw [h2] at hid'
      simp at hid'
    · rw [Option.isNone_iff_eq_none] at h2
      rw [h2] at hty'
      simp at hty'

/-- C7 witness: the concrete record whose timestamp is
`"01/02/2024 00:00"` passes the presence check, fails the parse, and is
neither written nor routed. -/
theorem C7_witness :
    (stageRecord bad_timestamp_payload).timestamp = none ∧
    stageRecord bad_timestamp_payload
        ∉ cleaned_df [bad_timestamp_payload] ∧
    stageRecord bad_timestamp_payload
        ∉ invalid_df [bad_timestamp_payload] :=
  C7_unparseable_timestamp_silently_dropped [bad_timestamp_payload]
    bad_timestamp_payload "01/02/2024 00:00" rfl rfl rfl rfl

/-- C7 counterexample: for that same record — all four required fields
present, timestamp unparseable — both `cleaned_df` and `invalid_df` are
empty: the record is silently dropped with no provenance, instead of
being "routed with explicit provenance like other validation
failures". -/
theorem C7_counterexample :
    getString bad_timestamp_payload "timestamp"
        = some "01/02/2024 00:00" ∧
    (stageRecord bad_timestamp_payload).user_id = some 7 ∧
    cleaned_df [bad_timestamp_payload] = [] ∧
    invalid_df [bad_timestamp_payload] = [] :=
  ⟨rfl, rfl, rfl, rfl⟩

/-- C10: every row written to the table has exactly the fifteen columns
of the base schema, in the fixed order of the `CREATE TABLE` statement;
no key outside that set occurs in any written row. -/
theorem C10_table_row_columns (input : List Payload) (row : Row)
    (hrow : row ∈ tableWrites input) :
    row.map Prod.fst = table_columns ∧
    ∀ k, k ∉ table_columns → List.lookup k row = none := by
  rw [tableWrites, List.mem_map] at hrow
  obtain ⟨r, -, rfl⟩ := hrow
  exact ⟨rfl, fun k hk => lookup_toTableRow_eq_none r k hk⟩

/-- C10 witness: the row written for the concrete valid `login` event has
exactly the fifteen table columns, and in particular no `cart_id`. -/
theorem C10_witness :
    (toTableRow (stageRecord login_payload)).map Prod.fst
        = table_columns ∧
    List.lookup "cart_id" (toTableRow (stageRecord login_payload))
        = none :=
  ⟨(C10_table_row_columns [login_payload]
      (toTableRow (stageRecord login_payload)) (by decide)).1,
   (C10_table_row_columns [login_payload]
      (toTableRow (stageRecord login_payload)) (by decide)).2
      "cart_id" (by decide)⟩

/-- C9: the ingress rejects, without producing to the broker, any request
body missing any of the seven `EventModel` fields (so `session_id`,
`location` and `device` are mandatory at the ingress in addition to the
four the pipeline requires), while arbitrary extra fields leave the
validation outcome unchanged and an accepted body is produced whole,
keyed by `session_id`. -/
theorem C9_ingress_required_fields (b : Broker) (body extras : Payload)
    (hex : ∀ kv ∈ extras, kv.1 ∉ api_required_fields) :
    (∀ f ∈ api_required_fields, List.lookup f body = none →
        send_event b body = (ApiResponse.validationError, b)) ∧
    validEventModel (body ++ extras) = validEventModel body ∧
    (validEventModel body = true →
        send_event b body =
          (ApiResponse.accepted, ⟨b.messages ++ [(sessionKey body, body)]⟩)) := by
  refine ⟨?_, ?_, ?_⟩
  · intro f hf hmiss
    have hok : apiFieldOk body f = false := by
      unfold apiFieldOk getInt getString
      rw [hmiss]
      split <;> rfl
    have hval : validEventModel body = false := by
      rw [validEventModel]
      by_contra hne
      have htrue : api_required_fields.all (apiFieldOk body) = true := by
        cases h : api_required_fields.all (apiFieldOk body)
        · exact absurd h hne
        · rfl
      have := (List.all_eq_true.mp htrue) f hf
      rw [hok] at this
      exact Bool.false_ne_true this
    unfold send_event
    rw [hval]
    rfl
  · have hfields : ∀ f ∈ api_required_fields,
        apiFieldOk (body ++ extras) f = apiFieldOk body f := by
      intro f hf
      unfold apiFieldOk getInt getString
      rw [lookup_append_extras body extras api_required_fields f hf hex]
    exact all_congr_mem api_required_fields hfields
  · intro hval
    unfold send_event
    rw [hval]
    rfl

/-- C9 witness: the concrete body missing `device` is rejected and the
broker is untouched; the complete body is accepted with extra fields
leaving validation unchanged. -/
theorem C9_witness :
    send_event ⟨[]⟩ missing_device_body = (ApiResponse.validationError, ⟨[]⟩) ∧
    validEventModel (full_body ++ extra_body_fields)
        = validEventModel full_body ∧
    send_event ⟨[]⟩ full_body =
      (ApiResponse.accepted, ⟨[("s10", full_body)]⟩) :=
  ⟨(C9_ingress_required_fields ⟨[]⟩ missing_device_body extra_body_fields
      (by decide)).1 "device" (by decide) rfl,
   (C9_ingress_required_fields ⟨[]⟩ full_body extra_body_fields
      (by decide)).2.1,
   (C9_ingress_required_fields ⟨[]⟩ full_body extra_body_fields
      (by decide)).2.2 (by decide)⟩

/-- C6 (amended): the driver never retries a failed commit: the first
failing attempt is surfaced as fatal (the exception is re-raised) and the
session is stopped; it processes exactly the maximal prefix of batches
whose first attempt succeeds, so a failure halts the pipeline rather than
silently dropping a batch and processing past it. -/
theorem C6_first_failure_fatal_no_retry (ks : List Nat) :
    (runDriver ks).committed = (ks.takeWhile (fun k => k == 0)).length ∧
    (runDriver ks).fatal = ks.any (fun k => k != 0) ∧
    (runDriver ks).stopped = true := by
  induction ks with
  | nil => exact ⟨rfl, rfl, rfl⟩
  | cons k rest ih =>
    cases k with
    | zero =>
      refine ⟨?_, ?_, rfl⟩
      · show (runDriver rest).committed + 1 = _
        rw [ih.1]
        simp [List.takeWhile_cons]
      · show (runDriver rest).fatal = _
        rw [ih.2.1]
        simp
    | succ n =>
      refine ⟨?_, ?_, rfl⟩
      · show 0 = _
        simp [List.takeWhile_cons]
      · show true = _
        simp

/-- C6 counterexample: a single transient failure (the commit would
succeed on its second attempt) halts the pipeline fatally with nothing
committed, whereas the retrying driver the claim describes (any attempt
cap of at least two) absorbs it and commits the batch. -/
theorem C6_counterexample :
    runDriver [1] = ⟨0, true, true⟩ ∧
    runDriverSpecRetry 2 [1] = ⟨1, false, true⟩ :=
  ⟨rfl, rfl⟩

/-- C8: the committed watermark never decreases — not across a single
processed record, not across a consumer session, not across restarts
(which resume from the persisted checkpoint unchanged), and not across
any whole lifetime of sessions separated by restarts. -/
theorem C8_watermark_monotone (log : Nat → Payload) :
    (∀ (st : PipelineState) (o : Nat),
        st.watermark ≤ (processRecord log st o).watermark) ∧
    (∀ st : PipelineState, (restart st).watermark = st.watermark) ∧
    (∀ (st : PipelineState) (ds : List Nat),
        st.watermark ≤ (runConsumer log st ds).watermark) ∧
    (∀ (st : PipelineState) (dss : List (List Nat)),
        st.watermark ≤ (runSessions log st dss).watermark) :=
  ⟨fun st o => processRecord_watermark_le log st o,
   fun _ => rfl,
   fun st ds => runConsumer_watermark_le log ds st,
   fun st dss => runSessions_watermark_le log dss st⟩

/-- C2: commits are all-or-nothing in the visible state: any sequence of
commit attempts that crash (before the data-file write, or between the
write and the watermark publication) leaves the visible table state —
committed rows and committed watermark together — exactly as before, and
retrying the batch whole afterwards yields exactly the state a clean
commit would have produced, with no duplication from the crashed
attempts' orphaned files. -/
theorem C2_commit_atomicity (st : PipelineState)
    (attempts : List (List Row × CrashPoint)) (rows : List Row) (o : Nat) :
    visible (crashedAttempts st attempts) = visible st ∧
    visible (commitBatch (crashedAttempts st attempts) rows o)
      = visible (commitBatch st rows o) := by
  obtain ⟨hc, hw⟩ := crashedAttempts_core attempts st
  constructor
  · unfold visible
    rw [hc, hw]
  · unfold visible commitBatch
    simp [hc, hw]

/-- C1: under at-least-once redelivery — any delivery sequence an ordered
log can produce, including arbitrary replays of already-consumed offset
ranges and restarts between sessions — the final visible table state is
exactly the canonical one: each valid Event of the log appears exactly
once (offsets at or below the committed watermark are skipped before
validation), and every delivered offset below `N` is covered, so no valid
Event is duplicated or lost. -/
theorem C1_exactly_once (log : Nat → Payload) (dss : List (List Nat))
    (N : Nat) (hdel : Deliverable 0 dss.flatten)
    (hcover : ∀ o, o < N → o ∈ dss.flatten) :
    ∃ kf, N ≤ kf ∧
      visible (runSessions log initState dss)
        = (canonicalRows log kf, (kf : Int) - 1) := by
  obtain ⟨kf, -, hrun, hcov⟩ := runConsumer_deliverable log hdel []
  have hNk : N ≤ kf := by
    cases N with
    | zero => omega
    | succ n =>
      have := hcov n (hcover n (by omega))
      omega
  refine ⟨kf, hNk, ?_⟩
  rw [visible_runSessions_flatten]
  have hinit : initState
      = (⟨canonicalRows log 0, [], ((0 : Nat) : Int) - 1⟩ : PipelineState) := rfl
  rw [hinit, hrun]
  rfl

/-- C1 witness: a log with a valid record at offsets 0 and 2 and an
invalid one at offset 1, delivered over two sessions with the whole first
range replayed after the restart, still converges to the canonical
state. -/
theorem C1_witness :
    ∃ kf, 3 ≤ kf ∧
      visible (runSessions example_log initState [[0, 1], [0, 1, 2]])
        = (canonicalRows example_log kf, (kf : Int) - 1) :=
  C1_exactly_once example_log [[0, 1], [0, 1, 2]] 3
    (Deliverable.advance 0 _ (Deliverable.advance 1 _
      (Deliverable.replay 2 0 _ (by decide) (Deliverable.replay 2 1 _
        (by decide) (Deliverable.advance 2 _ (Deliverable.nil 3))))))
    (by decide)

end ECommerce
